import Mathlib

/-!
Verification of the rust-keyutils syscall-marshaling layer.

A shallow embedding of `keyutils-raw/src/functions.rs`,
`libkeyutils-sys/src/constants.rs` and `src/keytypes/asymmetric.rs`.
Each Rust wrapper is modelled as a pure function from its arguments plus the
kernel response (the raw `c_long` return value and the prevailing `errno`) to
an outcome (panic, error, or success value) together with the list of syscall
requests it issued, recording the marshaled arguments.
Pointers are modelled as `Option` values (`none` = null), byte strings as
`List Nat`, machine integers as `Int`/`Nat` with explicit range checks.
-/

namespace Keyutils

/-- Bytes of a Rust `str` or `[u8]` buffer. -/
abbrev Str := List Nat

/-- Range of a 32-bit signed integer, lower bound. -/
def i32Min : Int := -(2 ^ 31)

/-- Range of a 32-bit signed integer, upper bound. -/
def i32Max : Int := 2 ^ 31 - 1

/-- Largest value of a 32-bit unsigned integer (kernel length fields, uid_t). -/
def u32Max : Nat := 2 ^ 32 - 1

/-- Whether a kernel `c_long` fits in an `i32` (the `res.try_into()` check in
`keyring_serial`). -/
def fitsI32 (r : Int) : Bool := decide (i32Min ≤ r) && decide (r ≤ i32Max)

/-- The `errno::Errno` wrapper around a raw kernel error code. -/
structure Errno where
  code : Int
deriving DecidableEq, Repr

/-- The Linux `EINVAL` error code. -/
def EINVAL : Int := 22

/-- The distinct panic messages of `functions.rs`: the three static strings,
the implicit panic of `CString::new(..).unwrap()` on an interior NUL byte, and
the `assert_eq!` in `ignore`. -/
inductive PanicMsg where
  | THE_KERNEL_LIED
  | ZERO_KEY_ID_FOUND
  | BUFFER_OVERFLOW
  | NUL_ERROR
  | ASSERT_EQ_FAILED
deriving DecidableEq, Repr

/-- A computation that either panics or produces a value (Rust panics modelled
explicitly). -/
inductive PanicOr (α : Type) where
  | panic (msg : PanicMsg)
  | value (v : α)
deriving DecidableEq, Repr

/-- Outcome of a whole wrapper call: a panic, a returned `Err`, or `Ok`. -/
inductive Outcome (α : Type) where
  | panic (msg : PanicMsg)
  | err (e : Errno)
  | ok (v : α)
deriving DecidableEq, Repr

/-- A `CString`: a NUL-free byte string (only built through `cstring`). -/
structure CStr where
  val : List Nat
deriving DecidableEq, Repr

/-- Modelled from the spec: `KeyringSerial` (defined outside the marshaling
source, re-exported by the `keyutils-raw` crate root) is a nonzero 32-bit
kernel-assigned key identifier, Rust `NonZeroI32`. Zero is invalid. -/
structure KeyringSerial where
  val : Int
deriving DecidableEq, Repr

/-- Modelled from the spec: `NonZeroI32::new`, `none` exactly on zero. -/
def KeyringSerial.new (v : Int) : Option KeyringSerial :=
  if v = 0 then none else some ⟨v⟩

/-- The `NonZeroI32::get` accessor. -/
def KeyringSerial.get (k : KeyringSerial) : Int := k.val

/-- The `check_syscall` helper: a raw return of `-1` yields the current
`errno` unmodified, anything else is success. -/
def check_syscall (errnoVal : Int) (res : Int) : Except Errno Int :=
  if res = -1 then .error ⟨errnoVal⟩ else .ok res

/-- The `cstring` helper: `CString::new(s.as_bytes()).unwrap()`; an interior
NUL byte makes `CString::new` return an error and `unwrap` panic. -/
def cstring (s : Str) : PanicOr CStr :=
  if s.contains 0 then .panic .NUL_ERROR else .value ⟨s⟩

/-- The `opt_cstring` helper: convert an optional string. -/
def opt_cstring (o : Option Str) : PanicOr (Option CStr) :=
  match o with
  | none => .value none
  | some s =>
    match cstring s with
    | .panic m => .panic m
    | .value c => .value (some c)

/-- The `opt_key_serial` helper: an absent key identifier maps to 0. -/
def opt_key_serial (o : Option KeyringSerial) : Int :=
  (o.map KeyringSerial.get).getD 0

/-- The `keyring_serial` result converter: `res.try_into()` (i64 → i32)
panics with `THE_KERNEL_LIED` when out of range, then `KeyringSerial::new`
panics with `ZERO_KEY_ID_FOUND` on zero. -/
def keyring_serial (res : Int) : PanicOr KeyringSerial :=
  if fitsI32 res then
    match KeyringSerial.new res with
    | some k => .value k
    | none => .panic .ZERO_KEY_ID_FOUND
  else .panic .THE_KERNEL_LIED

/-- The `size` result converter: `res.try_into()` (i64 → usize on a 64-bit
target) panics with `BUFFER_OVERFLOW` exactly on negative values. -/
def size (res : Int) : PanicOr Nat :=
  if 0 ≤ res then .value res.toNat else .panic .BUFFER_OVERFLOW

/-- The `ignore` result converter: `assert_eq!(res, 0)`. -/
def ignore (res : Int) : PanicOr Unit :=
  if res = 0 then .value () else .panic .ASSERT_EQ_FAILED

/-- The `safe_len` helper at `T = u32`: a `usize` length that does not fit a
32-bit kernel length field yields `Err(EINVAL)`. -/
def safe_len (len : Nat) : Except Errno Nat :=
  if len ≤ u32Max then .ok len else .error ⟨EINVAL⟩

/-- Compose `check_syscall` with a `.map(converter)` over the `Result`. -/
def mapOutcome (f : Int → PanicOr α) : Except Errno Int → Outcome α
  | .error e => .err e
  | .ok r =>
    match f r with
    | .panic m => .panic m
    | .value v => .ok v

/-- The `DhComputeParamsKernel` fixed-layout struct. -/
structure DhComputeParamsKernel where
  priv_ : Int
  prime : Int
  base : Int
deriving DecidableEq, Repr

/-- The `DhKdfParamsKernel` fixed-layout struct; `otherinfo` is a nullable
pointer (`none` = null), `spare` the zeroed reserved words. -/
structure DhKdfParamsKernel where
  hashname : CStr
  otherinfo : Option (List Nat)
  otherinfolen : Nat
  spare : List Nat
deriving DecidableEq, Repr

/-- The `PKeyOpParamsKernel` fixed-layout struct. -/
structure PKeyOpParamsKernel where
  key_id : Int
  in_len : Nat
  out_len : Nat
  in2_len : Nat
deriving DecidableEq, Repr

/-- A marshaled syscall request: one constructor per wrapper, with the
arguments exactly as handed to the kernel. Output buffers are recorded as a
null flag plus the capacity passed; nullable string pointers as `Option CStr`. -/
inductive SyscallReq where
  | addKey (type_ desc : CStr) (payload : List Nat) (plen : Nat) (ringid : Int)
  | requestKey (type_ desc : CStr) (callout : Option CStr) (destringid : Int)
  | getKeyringId (id : Int) (create : Int)
  | joinSessionKeyring (name : Option CStr)
  | search (ringid : Int) (type_ desc : CStr) (destringid : Int)
  | describe (id : Int) (bufNull : Bool) (capacity : Nat)
  | readReq (id : Int) (bufNull : Bool) (capacity : Nat)
  | getSecurity (id : Int) (bufNull : Bool) (capacity : Nat)
  | chown (id : Int) (uid gid : Nat)
  | getPersistent (uid : Nat) (id : Int)
  | setReqkeyKeyring (code : Int)
  | dhCompute (params : DhComputeParamsKernel) (bufNull : Bool) (capacity : Nat)
      (kdf : Option DhKdfParamsKernel)
  | restrictKeyring (keyring : Int) (typePtr restrictionPtr : Option CStr)
  | pkeyQuery (key : Int) (info : CStr)
  | pkeyEncrypt (params : PKeyOpParamsKernel) (info : CStr) (data : List Nat)
      (bufCapacity : Nat)
  | pkeyDecrypt (params : PKeyOpParamsKernel) (info : CStr) (data : List Nat)
      (bufCapacity : Nat)
  | pkeySign (params : PKeyOpParamsKernel) (info : CStr) (data : List Nat)
      (bufCapacity : Nat)
  | pkeyVerify (params : PKeyOpParamsKernel) (info : CStr) (data sig : List Nat)
deriving DecidableEq, Repr

/-- Result of running a wrapper: its outcome and the requests it issued. -/
abbrev OpRun (α : Type) := Outcome α × List SyscallReq

/-- The `add_key` wrapper. -/
def add_key (type_ description : Str) (payload : List Nat)
    (keyring : KeyringSerial) (kres kerrno : Int) : OpRun KeyringSerial :=
  match cstring type_ with
  | .panic m => (.panic m, [])
  | .value type_cstr =>
    match cstring description with
    | .panic m => (.panic m, [])
    | .value desc_cstr =>
      (mapOutcome keyring_serial (check_syscall kerrno kres),
       [.addKey type_cstr desc_cstr payload payload.length keyring.get])

/-- The `request_key` wrapper. -/
def request_key (type_ description : Str) (callout_info : Option Str)
    (keyring : Option KeyringSerial) (kres kerrno : Int) : OpRun KeyringSerial :=
  match cstring type_ with
  | .panic m => (.panic m, [])
  | .value type_cstr =>
    match cstring description with
    | .panic m => (.panic m, [])
    | .value desc_cstr =>
      match opt_cstring callout_info with
      | .panic m => (.panic m, [])
      | .value callout_ptr =>
        (mapOutcome keyring_serial (check_syscall kerrno kres),
         [.requestKey type_cstr desc_cstr callout_ptr (opt_key_serial keyring)])

/-- The `keyctl_get_keyring_id` wrapper. -/
def keyctl_get_keyring_id (id : KeyringSerial) (create : Bool)
    (kres kerrno : Int) : OpRun KeyringSerial :=
  (mapOutcome keyring_serial (check_syscall kerrno kres),
   [.getKeyringId id.get (if create then 1 else 0)])

/-- The `keyctl_join_session_keyring` wrapper. -/
def keyctl_join_session_keyring (name : Option Str) (kres kerrno : Int) :
    OpRun KeyringSerial :=
  match opt_cstring name with
  | .panic m => (.panic m, [])
  | .value name_ptr =>
    (mapOutcome keyring_serial (check_syscall kerrno kres),
     [.joinSessionKeyring name_ptr])

/-- The `keyctl_search` wrapper. -/
def keyctl_search (ringid : KeyringSerial) (type_ description : Str)
    (destringid : Option KeyringSerial) (kres kerrno : Int) :
    OpRun KeyringSerial :=
  match cstring type_ with
  | .panic m => (.panic m, [])
  | .value type_cstr =>
    match cstring description with
    | .panic m => (.panic m, [])
    | .value desc_cstr =>
      (mapOutcome keyring_serial (check_syscall kerrno kres),
       [.search ringid.get type_cstr desc_cstr (opt_key_serial destringid)])

/-- The `keyctl_describe` wrapper; the buffer is its capacity when present. -/
def keyctl_describe (id : KeyringSerial) (buffer : Option Nat)
    (kres kerrno : Int) : OpRun Nat :=
  let capacity := buffer.getD 0
  (mapOutcome size (check_syscall kerrno kres),
   [.describe id.get buffer.isNone capacity])

/-- The `keyctl_read` wrapper. -/
def keyctl_read (id : KeyringSerial) (buffer : Option Nat)
    (kres kerrno : Int) : OpRun Nat :=
  let capacity := buffer.getD 0
  (mapOutcome size (check_syscall kerrno kres),
   [.readReq id.get buffer.isNone capacity])

/-- The `keyctl_get_security` wrapper. -/
def keyctl_get_security (key : KeyringSerial) (buffer : Option Nat)
    (kres kerrno : Int) : OpRun Nat :=
  let capacity := buffer.getD 0
  (mapOutcome size (check_syscall kerrno kres),
   [.getSecurity key.get buffer.isNone capacity])

/-- The `keyctl_chown` wrapper: `uid.unwrap_or(!0)` / `gid.unwrap_or(!0)`,
the all-ones `u32` sentinel for an absent id. -/
def keyctl_chown (id : KeyringSerial) (uid gid : Option Nat)
    (kres kerrno : Int) : OpRun Unit :=
  (mapOutcome ignore (check_syscall kerrno kres),
   [.chown id.get (uid.getD u32Max) (gid.getD u32Max)])

/-- The `keyctl_get_persistent` wrapper. -/
def keyctl_get_persistent (uid : Nat) (id : KeyringSerial)
    (kres kerrno : Int) : OpRun KeyringSerial :=
  (mapOutcome keyring_serial (check_syscall kerrno kres),
   [.getPersistent uid id.get])

/-- The `keyctl_dh_compute` wrapper (no KDF: null KDF-params pointer). -/
def keyctl_dh_compute (private_ prime base : KeyringSerial)
    (buffer : Option Nat) (kres kerrno : Int) : OpRun Nat :=
  let params : DhComputeParamsKernel := ⟨private_.get, prime.get, base.get⟩
  let capacity := buffer.getD 0
  (mapOutcome size (check_syscall kerrno kres),
   [.dhCompute params buffer.isNone capacity none])

/-- The `keyctl_dh_compute_kdf` wrapper: converts the hash name (a NUL
panics here), then builds the KDF params whose `otherinfolen` goes through
`safe_len` (`Err(EINVAL)` returned early on overflow). -/
def keyctl_dh_compute_kdf (private_ prime base : KeyringSerial)
    (hashname : Str) (otherinfo : Option (List Nat)) (buffer : Option Nat)
    (kres kerrno : Int) : OpRun Nat :=
  let params : DhComputeParamsKernel := ⟨private_.get, prime.get, base.get⟩
  match cstring hashname with
  | .panic m => (.panic m, [])
  | .value hash_cstr =>
    match safe_len ((otherinfo.map List.length).getD 0) with
    | .error e => (.err e, [])
    | .ok olen =>
      let kdf_params : DhKdfParamsKernel :=
        ⟨hash_cstr, otherinfo, olen, List.replicate 8 0⟩
      let capacity := buffer.getD 0
      (mapOutcome size (check_syscall kerrno kres),
       [.dhCompute params buffer.isNone capacity (some kdf_params)])

/-- The `Restriction` argument of `keyctl_restrict_keyring`. -/
inductive Restriction where
  | AllLinks
  | ByType (type_ : Str) (restriction : Str)

/-- The `keyctl_restrict_keyring` wrapper. -/
def keyctl_restrict_keyring (keyring : KeyringSerial)
    (restriction : Restriction) (kres kerrno : Int) : OpRun Unit :=
  match restriction with
  | .AllLinks =>
    (mapOutcome ignore (check_syscall kerrno kres),
     [.restrictKeyring keyring.get none none])
  | .ByType type_ restr =>
    match cstring type_ with
    | .panic m => (.panic m, [])
    | .value type_cstr =>
      match cstring restr with
      | .panic m => (.panic m, [])
      | .value restriction_cstr =>
        (mapOutcome ignore (check_syscall kerrno kres),
         [.restrictKeyring keyring.get (some type_cstr) (some restriction_cstr)])

/-- The public `PKeyQuery` result struct. -/
structure PKeyQuery where
  supported_ops : Nat
  key_size : Nat
  max_data_size : Nat
  max_sig_size : Nat
  max_enc_size : Nat
  max_dec_size : Nat
deriving DecidableEq, Repr

/-- The `keyctl_pkey_query` wrapper: the kernel fills the over-provisioned
struct (modelled as the kernel-supplied `filled` argument); `ignore` asserts
the raw result is 0 and the reserved words are dropped by the conversion. -/
def keyctl_pkey_query (key : KeyringSerial) (info : Str) (filled : PKeyQuery)
    (kres kerrno : Int) : OpRun PKeyQuery :=
  match cstring info with
  | .panic m => (.panic m, [])
  | .value info_cstr =>
    (match mapOutcome ignore (check_syscall kerrno kres) with
     | .panic m => .panic m
     | .err e => .err e
     | .ok _ => .ok filled,
     [.pkeyQuery key.get info_cstr])

/-- The `keyctl_pkey_encrypt` wrapper: both lengths go through `safe_len`
(data first, then the output buffer) before the info string is converted. -/
def keyctl_pkey_encrypt (key : KeyringSerial) (info : Str) (data : List Nat)
    (buffer : Nat) (kres kerrno : Int) : OpRun Nat :=
  match safe_len data.length with
  | .error e => (.err e, [])
  | .ok in_len =>
    match safe_len buffer with
    | .error e => (.err e, [])
    | .ok out_len =>
      let params : PKeyOpParamsKernel := ⟨key.get, in_len, out_len, 0⟩
      match cstring info with
      | .panic m => (.panic m, [])
      | .value info_cstr =>
        (mapOutcome size (check_syscall kerrno kres),
         [.pkeyEncrypt params info_cstr data buffer])

/-- The `keyctl_pkey_decrypt` wrapper. -/
def keyctl_pkey_decrypt (key : KeyringSerial) (info : Str) (data : List Nat)
    (buffer : Nat) (kres kerrno : Int) : OpRun Nat :=
  match safe_len data.length with
  | .error e => (.err e, [])
  | .ok in_len =>
    match safe_len buffer with
    | .error e => (.err e, [])
    | .ok out_len =>
      let params : PKeyOpParamsKernel := ⟨key.get, in_len, out_len, 0⟩
      match cstring info with
      | .panic m => (.panic m, [])
      | .value info_cstr =>
        (mapOutcome size (check_syscall kerrno kres),
         [.pkeyDecrypt params info_cstr data buffer])

/-- The `keyctl_pkey_sign` wrapper. -/
def keyctl_pkey_sign (key : KeyringSerial) (info : Str) (data : List Nat)
    (buffer : Nat) (kres kerrno : Int) : OpRun Nat :=
  match safe_len data.length with
  | .error e => (.err e, [])
  | .ok in_len =>
    match safe_len buffer with
    | .error e => (.err e, [])
    | .ok out_len =>
      let params : PKeyOpParamsKernel := ⟨key.get, in_len, out_len, 0⟩
      match cstring info with
      | .panic m => (.panic m, [])
      | .value info_cstr =>
        (mapOutcome size (check_syscall kerrno kres),
         [.pkeySign params info_cstr data buffer])

/-- The `keyctl_pkey_verify` wrapper: success is `res == 0`. -/
def keyctl_pkey_verify (key : KeyringSerial) (info : Str)
    (data sig : List Nat) (kres kerrno : Int) : OpRun Bool :=
  match safe_len data.length with
  | .error e => (.err e, [])
  | .ok in_len =>
    match safe_len sig.length with
    | .error e => (.err e, [])
    | .ok in2_len =>
      let params : PKeyOpParamsKernel := ⟨key.get, in_len, 0, in2_len⟩
      match cstring info with
      | .panic m => (.panic m, [])
      | .value info_cstr =>
        (match check_syscall kerrno kres with
         | .error e => .err e
         | .ok r => .ok (decide (r = 0)),
         [.pkeyVerify params info_cstr data sig])

/-! The constants table of `libkeyutils-sys/src/constants.rs`.
`key_serial_t` is `i32` (modelled `Int`), `key_perm_t` is `u32`
(modelled `Nat`). -/

/-- Special keyring id: thread keyring. -/
def KEY_SPEC_THREAD_KEYRING : Int := -1

/-- Special keyring id: process keyring. -/
def KEY_SPEC_PROCESS_KEYRING : Int := -2

/-- Special keyring id: session keyring. -/
def KEY_SPEC_SESSION_KEYRING : Int := -3

/-- Special keyring id: user keyring. -/
def KEY_SPEC_USER_KEYRING : Int := -4

/-- Special keyring id: user-session keyring. -/
def KEY_SPEC_USER_SESSION_KEYRING : Int := -5

/-- Special keyring id: group keyring. -/
def KEY_SPEC_GROUP_KEYRING : Int := -6

/-- Special keyring id: request-key authentication key. -/
def KEY_SPEC_REQKEY_AUTH_KEY : Int := -7

/-- Default-keyring selector code: no change. -/
def KEY_REQKEY_DEFL_NO_CHANGE : Int := -1

/-- Default-keyring selector code: default. -/
def KEY_REQKEY_DEFL_DEFAULT : Int := 0

/-- Default-keyring selector code: thread keyring. -/
def KEY_REQKEY_DEFL_THREAD_KEYRING : Int := 1

/-- Default-keyring selector code: process keyring. -/
def KEY_REQKEY_DEFL_PROCESS_KEYRING : Int := 2

/-- Default-keyring selector code: session keyring. -/
def KEY_REQKEY_DEFL_SESSION_KEYRING : Int := 3

/-- Default-keyring selector code: user keyring. -/
def KEY_REQKEY_DEFL_USER_KEYRING : Int := 4

/-- Default-keyring selector code: user-session keyring. -/
def KEY_REQKEY_DEFL_USER_SESSION_KEYRING : Int := 5

/-- Default-keyring selector code: group keyring. -/
def KEY_REQKEY_DEFL_GROUP_KEYRING : Int := 6

/-- Permission bit: possessor view. -/
def KEY_POS_VIEW : Nat := 0x01000000

/-- Permission bit: possessor read. -/
def KEY_POS_READ : Nat := 0x02000000

/-- Permission bit: possessor write. -/
def KEY_POS_WRITE : Nat := 0x04000000

/-- Permission bit: possessor search. -/
def KEY_POS_SEARCH : Nat := 0x08000000

/-- Permission bit: possessor link. -/
def KEY_POS_LINK : Nat := 0x10000000

/-- Permission bit: possessor setattr. -/
def KEY_POS_SETATTR : Nat := 0x20000000

/-- Permission mask: all possessor bits. -/
def KEY_POS_ALL : Nat := 0x3f000000

/-- Permission bit: user view. -/
def KEY_USR_VIEW : Nat := 0x00010000

/-- Permission bit: user read. -/
def KEY_USR_READ : Nat := 0x00020000

/-- Permission bit: user write. -/
def KEY_USR_WRITE : Nat := 0x00040000

/-- Permission bit: user search. -/
def KEY_USR_SEARCH : Nat := 0x00080000

/-- Permission bit: user link. -/
def KEY_USR_LINK : Nat := 0x00100000

/-- Permission bit: user setattr. -/
def KEY_USR_SETATTR : Nat := 0x00200000

/-- Permission mask: all user bits. -/
def KEY_USR_ALL : Nat := 0x003f0000

/-- Permission bit: group view. -/
def KEY_GRP_VIEW : Nat := 0x00000100

/-- Permission bit: group read. -/
def KEY_GRP_READ : Nat := 0x00000200

/-- Permission bit: group write. -/
def KEY_GRP_WRITE : Nat := 0x00000400

/-- Permission bit: group search. -/
def KEY_GRP_SEARCH : Nat := 0x00000800

/-- Permission bit: group link. -/
def KEY_GRP_LINK : Nat := 0x00001000

/-- Permission bit: group setattr. -/
def KEY_GRP_SETATTR : Nat := 0x00002000

/-- Permission mask: all group bits. -/
def KEY_GRP_ALL : Nat := 0x00003f00

/-- Permission bit: other view. -/
def KEY_OTH_VIEW : Nat := 0x00000001

/-- Permission bit: other read. -/
def KEY_OTH_READ : Nat := 0x00000002

/-- Permission bit: other write. -/
def KEY_OTH_WRITE : Nat := 0x00000004

/-- Permission bit: other search. -/
def KEY_OTH_SEARCH : Nat := 0x00000008

/-- Permission bit: other link. -/
def KEY_OTH_LINK : Nat := 0x00000010

/-- Permission bit: other setattr. -/
def KEY_OTH_SETATTR : Nat := 0x00000020

/-- Permission mask: all other bits. -/
def KEY_OTH_ALL : Nat := 0x0000003f

/-- Modelled from the spec: the `DefaultKeyring` enum (defined in the
`keyutils-raw` crate root, outside the marshaling source), one variant per
default-keyring selector, mapped 1:1 to the kernel integer codes of the
constants table. -/
inductive DefaultKeyring where
  | NoChange
  | Default
  | Thread
  | Process
  | Session
  | User
  | UserSession
  | Group
deriving DecidableEq, Repr

/-- Modelled from the spec: the kernel integer code of each selector
(the `KEY_REQKEY_DEFL_*` constants). -/
def DefaultKeyring.toCode : DefaultKeyring → Int
  | .NoChange => KEY_REQKEY_DEFL_NO_CHANGE
  | .Default => KEY_REQKEY_DEFL_DEFAULT
  | .Thread => KEY_REQKEY_DEFL_THREAD_KEYRING
  | .Process => KEY_REQKEY_DEFL_PROCESS_KEYRING
  | .Session => KEY_REQKEY_DEFL_SESSION_KEYRING
  | .User => KEY_REQKEY_DEFL_USER_KEYRING
  | .UserSession => KEY_REQKEY_DEFL_USER_SESSION_KEYRING
  | .Group => KEY_REQKEY_DEFL_GROUP_KEYRING

/-- Modelled from the spec: `TryFrom` decoding of a raw kernel code into a
selector; any integer other than the eight defined codes is rejected
(`UnknownDefault`). -/
def DefaultKeyring.fromCode (r : Int) : Option DefaultKeyring :=
  if r = KEY_REQKEY_DEFL_NO_CHANGE then some .NoChange
  else if r = KEY_REQKEY_DEFL_DEFAULT then some .Default
  else if r = KEY_REQKEY_DEFL_THREAD_KEYRING then some .Thread
  else if r = KEY_REQKEY_DEFL_PROCESS_KEYRING then some .Process
  else if r = KEY_REQKEY_DEFL_SESSION_KEYRING then some .Session
  else if r = KEY_REQKEY_DEFL_USER_KEYRING then some .User
  else if r = KEY_REQKEY_DEFL_USER_SESSION_KEYRING then some .UserSession
  else if r = KEY_REQKEY_DEFL_GROUP_KEYRING then some .Group
  else none

/-- The `default_keyring` result converter: an undefined code is reported
loudly (the raw value is logged via `error!`, the first component) and
mapped to `Err(EINVAL)`; a defined code decodes silently to its selector. -/
def default_keyring (res : Int) : Option Int × Except Errno DefaultKeyring :=
  match DefaultKeyring.fromCode res with
  | some d => (none, .ok d)
  | none => (some res, .error ⟨EINVAL⟩)

/-- The `keyctl_set_reqkey_keyring` wrapper: `check_syscall` then
`.and_then(default_keyring)`. The first component of the outcome is the
logged raw value, when any. -/
def keyctl_set_reqkey_keyring (reqkey_defl : DefaultKeyring)
    (kres kerrno : Int) :
    (Option Int × Except Errno DefaultKeyring) × List SyscallReq :=
  (match check_syscall kerrno kres with
   | .error e => (none, .error e)
   | .ok res => default_keyring res,
   [.setReqkeyKeyring reqkey_defl.toCode])

/-- Modelled from the spec: the high-level `Key` wrapper (outside the three
source files) carries the kernel-assigned serial, returned by `serial()`. -/
structure Key where
  serial : KeyringSerial
deriving DecidableEq, Repr

/-- Modelled from the spec: the high-level `Keyring` wrapper carries the
kernel-assigned serial, returned by `serial()`. -/
structure Keyring where
  serial : KeyringSerial
deriving DecidableEq, Repr

/-- The `AsymmetricRestriction` enum of `keytypes/asymmetric.rs`. -/
inductive AsymmetricRestriction where
  | BuiltinTrusted
  | BuiltinAndSecondaryTrusted
  | Key (key : Key) (chained : Bool)
  | Keyring (keyring : Keyring) (chained : Bool)
  | Chained
deriving DecidableEq, Repr

/-- The `AsymmetricRestriction::restriction_str` helper:
`format!("key_or_keyring:{}{}", id, chain_suffix)`. -/
def AsymmetricRestriction.restriction_str (id : KeyringSerial)
    (chained : Bool) : String :=
  let chain_suffix := if chained then ":chain" else ""
  "key_or_keyring:" ++ toString id.get ++ chain_suffix

/-- The `KeyRestriction::restriction` implementation for
`AsymmetricRestriction`. -/
def AsymmetricRestriction.restriction : AsymmetricRestriction → String
  | .BuiltinTrusted => "builtin_trusted"
  | .BuiltinAndSecondaryTrusted => "builtin_and_secondary_trusted"
  | .Key key chained => restriction_str key.serial chained
  | .Keyring keyring chained => restriction_str keyring.serial chained
  | .Chained => "key_or_keyring:0:chain"

/-! Helper lemmas about the shared converters. -/

theorem cstring_of_not_contains {s : Str} (h : s.contains 0 = false) :
    cstring s = .value ⟨s⟩ := by
  simp at h
  simp [cstring, h]

theorem cstring_of_contains {s : Str} (h : s.contains 0 = true) :
    cstring s = .panic .NUL_ERROR := by
  simp at h
  simp [cstring, h]

theorem opt_cstring_of_not_contains {o : Option Str}
    (h : (o.getD []).contains 0 = false) :
    opt_cstring o = .value (o.map CStr.mk) := by
  cases o with
  | none => rfl
  | some s =>
    simp only [Option.getD_some] at h
    simp [opt_cstring, cstring_of_not_contains h]

theorem serialConv_overflow {r : Int} (e : Int) (h : fitsI32 r = false) :
    mapOutcome keyring_serial (check_syscall e r) = .panic .THE_KERNEL_LIED := by
  have hr : r ≠ -1 := by
    intro hg
    rw [hg] at h
    exact absurd h (by decide)
  simp [check_syscall, hr, mapOutcome, keyring_serial, h]

theorem serialConv_zero (e : Int) :
    mapOutcome keyring_serial (check_syscall e 0) = .panic .ZERO_KEY_ID_FOUND := by
  have h0 : (0 : Int) ≠ -1 := by decide
  have hf : fitsI32 0 = true := by decide
  simp [check_syscall, h0, mapOutcome, keyring_serial, hf, KeyringSerial.new]

theorem sizeConv_neg {r : Int} (e : Int) (h1 : r ≠ -1) (h2 : r < 0) :
    mapOutcome size (check_syscall e r) = .panic .BUFFER_OVERFLOW := by
  have hn : ¬ (0 : Int) ≤ r := not_le.mpr h2
  simp [check_syscall, h1, mapOutcome, size, hn]

theorem sizeConv_ok {r : Int} (e : Int) (h : 0 ≤ r) :
    mapOutcome size (check_syscall e r) = .ok r.toNat := by
  have h1 : r ≠ -1 := by omega
  simp [check_syscall, h1, mapOutcome, size, h]

theorem safe_len_of_le {n : Nat} (h : n ≤ u32Max) : safe_len n = .ok n := by
  simp [safe_len, h]

theorem safe_len_of_gt {n : Nat} (h : u32Max < n) :
    safe_len n = .error ⟨EINVAL⟩ := by
  simp [safe_len, not_le.mpr h]

/-! Claim theorems. -/

/-- C6: for every syscall wrapper, a raw return of `-1` yields an `Err`
carrying the current errno value unmodified, and any other return value is
treated as success and passed on to the result conversion; no other value
triggers the error path. -/
theorem C6_check_syscall_minus_one_only (errnoVal res : Int) :
    (res = -1 → check_syscall errnoVal res = .error ⟨errnoVal⟩) ∧
    (res ≠ -1 → check_syscall errnoVal res = .ok res) := by
  constructor <;> intro h <;> simp [check_syscall, h]

/-- C6 witness at concrete inputs. -/
theorem C6_check_syscall_minus_one_only_witness :
    check_syscall 13 (-1) = .error ⟨13⟩ ∧ check_syscall 13 5 = .ok 5 :=
  ⟨(C6_check_syscall_minus_one_only 13 (-1)).1 rfl,
   (C6_check_syscall_minus_one_only 13 5).2 (by decide)⟩

/-- C7: the 24 permission bits sit at the claimed fixed offsets (possessor
bits 24–29, user 16–21, group 8–13, other 0–5, with VIEW/READ/WRITE/SEARCH/
LINK/SETATTR ascending within each field), each ALL constant is the union of
its six bits, the four class fields are pairwise disjoint, and everything
fits the 32-bit mask. -/
theorem C7_permission_bits_layout :
    (KEY_POS_VIEW = 2 ^ 24 ∧ KEY_POS_READ = 2 ^ 25 ∧ KEY_POS_WRITE = 2 ^ 26 ∧
     KEY_POS_SEARCH = 2 ^ 27 ∧ KEY_POS_LINK = 2 ^ 28 ∧
     KEY_POS_SETATTR = 2 ^ 29) ∧
    (KEY_USR_VIEW = 2 ^ 16 ∧ KEY_USR_READ = 2 ^ 17 ∧ KEY_USR_WRITE = 2 ^ 18 ∧
     KEY_USR_SEARCH = 2 ^ 19 ∧ KEY_USR_LINK = 2 ^ 20 ∧
     KEY_USR_SETATTR = 2 ^ 21) ∧
    (KEY_GRP_VIEW = 2 ^ 8 ∧ KEY_GRP_READ = 2 ^ 9 ∧ KEY_GRP_WRITE = 2 ^ 10 ∧
     KEY_GRP_SEARCH = 2 ^ 11 ∧ KEY_GRP_LINK = 2 ^ 12 ∧
     KEY_GRP_SETATTR = 2 ^ 13) ∧
    (KEY_OTH_VIEW = 2 ^ 0 ∧ KEY_OTH_READ = 2 ^ 1 ∧ KEY_OTH_WRITE = 2 ^ 2 ∧
     KEY_OTH_SEARCH = 2 ^ 3 ∧ KEY_OTH_LINK = 2 ^ 4 ∧
     KEY_OTH_SETATTR = 2 ^ 5) ∧
    (KEY_POS_ALL = KEY_POS_VIEW ||| KEY_POS_READ ||| KEY_POS_WRITE |||
      KEY_POS_SEARCH ||| KEY_POS_LINK ||| KEY_POS_SETATTR) ∧
    (KEY_USR_ALL = KEY_USR_VIEW ||| KEY_USR_READ ||| KEY_USR_WRITE |||
      KEY_USR_SEARCH ||| KEY_USR_LINK ||| KEY_USR_SETATTR) ∧
    (KEY_GRP_ALL = KEY_GRP_VIEW ||| KEY_GRP_READ ||| KEY_GRP_WRITE |||
      KEY_GRP_SEARCH ||| KEY_GRP_LINK ||| KEY_GRP_SETATTR) ∧
    (KEY_OTH_ALL = KEY_OTH_VIEW ||| KEY_OTH_READ ||| KEY_OTH_WRITE |||
      KEY_OTH_SEARCH ||| KEY_OTH_LINK ||| KEY_OTH_SETATTR) ∧
    (KEY_POS_ALL &&& KEY_USR_ALL = 0 ∧ KEY_POS_ALL &&& KEY_GRP_ALL = 0 ∧
     KEY_POS_ALL &&& KEY_OTH_ALL = 0 ∧ KEY_USR_ALL &&& KEY_GRP_ALL = 0 ∧
     KEY_USR_ALL &&& KEY_OTH_ALL = 0 ∧ KEY_GRP_ALL &&& KEY_OTH_ALL = 0) ∧
    (KEY_POS_ALL = 0x3f * 2 ^ 24 ∧ KEY_USR_ALL = 0x3f * 2 ^ 16 ∧
     KEY_GRP_ALL = 0x3f * 2 ^ 8 ∧ KEY_OTH_ALL = 0x3f * 2 ^ 0) ∧
    (KEY_POS_ALL < 2 ^ 32 ∧ KEY_USR_ALL < 2 ^ 32 ∧ KEY_GRP_ALL < 2 ^ 32 ∧
     KEY_OTH_ALL < 2 ^ 32) := by
  decide

/-- C8: the special-keyring and default-keyring selector constants equal
the fixed kernel-documented integers. -/
theorem C8_fixed_kernel_constants :
    KEY_SPEC_THREAD_KEYRING = -1 ∧
    KEY_SPEC_PROCESS_KEYRING = -2 ∧
    KEY_SPEC_SESSION_KEYRING = -3 ∧
    KEY_SPEC_USER_KEYRING = -4 ∧
    KEY_SPEC_USER_SESSION_KEYRING = -5 ∧
    KEY_SPEC_GROUP_KEYRING = -6 ∧
    KEY_SPEC_REQKEY_AUTH_KEY = -7 ∧
    KEY_REQKEY_DEFL_NO_CHANGE = -1 ∧
    KEY_REQKEY_DEFL_DEFAULT = 0 ∧
    KEY_REQKEY_DEFL_THREAD_KEYRING = 1 ∧
    KEY_REQKEY_DEFL_PROCESS_KEYRING = 2 ∧
    KEY_REQKEY_DEFL_SESSION_KEYRING = 3 ∧
    KEY_REQKEY_DEFL_USER_KEYRING = 4 ∧
    KEY_REQKEY_DEFL_USER_SESSION_KEYRING = 5 ∧
    KEY_REQKEY_DEFL_GROUP_KEYRING = 6 := by
  decide

/-- C9: `keyctl_chown` passes an absent uid or gid to the kernel as the
all-ones sentinel (`!0` as an unsigned id, `2 ^ 32 - 1`), never as 0, and a
present value unchanged — in contrast to optional key identifiers, which map
to the sentinel 0 when absent (`opt_key_serial`). -/
theorem C9_chown_absent_id_all_ones :
    (∀ (id : KeyringSerial) (uidOpt gidOpt : Option Nat) (kres kerrno : Int),
      (keyctl_chown id uidOpt gidOpt kres kerrno).2 =
        [SyscallReq.chown id.get (uidOpt.getD (2 ^ 32 - 1))
          (gidOpt.getD (2 ^ 32 - 1))]) ∧
    (∀ u : Nat, (some u : Option Nat).getD (2 ^ 32 - 1) = u) ∧
    ((none : Option Nat).getD (2 ^ 32 - 1) = 2 ^ 32 - 1) ∧
    ((2 : Nat) ^ 32 - 1 ≠ 0) ∧
    (opt_key_serial none = 0) ∧
    (∀ k : KeyringSerial, opt_key_serial (some k) = k.get) := by
  refine ⟨?_, fun u => rfl, rfl, by decide, rfl, fun k => rfl⟩
  intro id uidOpt gidOpt kres kerrno
  simp [keyctl_chown, u32Max]

/-- C10: `AsymmetricRestriction::restriction` produces exactly the claimed
strings: the two builtin names, `key_or_keyring:<serial>` with `:chain`
appended exactly when the chained flag is set, and `key_or_keyring:0:chain`
for `Chained`. -/
theorem C10_asymmetric_restriction_strings :
    AsymmetricRestriction.restriction .BuiltinTrusted = "builtin_trusted" ∧
    AsymmetricRestriction.restriction .BuiltinAndSecondaryTrusted =
      "builtin_and_secondary_trusted" ∧
    (∀ (k : Key) (c : Bool),
      AsymmetricRestriction.restriction (.Key k c) =
        "key_or_keyring:" ++ toString k.serial.get ++
          (if c then ":chain" else "")) ∧
    (∀ (r : Keyring) (c : Bool),
      AsymmetricRestriction.restriction (.Keyring r c) =
        "key_or_keyring:" ++ toString r.serial.get ++
          (if c then ":chain" else "")) ∧
    AsymmetricRestriction.restriction .Chained = "key_or_keyring:0:chain" := by
  refine ⟨rfl, rfl, ?_, ?_, rfl⟩ <;> intro x c <;> cases c <;> rfl

/-- C1: when the kernel returns an integer that is not one of the defined
default-keyring selector codes, `keyctl_set_reqkey_keyring` takes the
fatal-inconsistency path — the raw value is loudly logged as a defect and the
result is the typed `EINVAL` error — and never decodes to a valid selector;
moreover encode/decode round-trips on every defined selector. -/
theorem C1_set_reqkey_unknown_code_fatal (d : DefaultKeyring)
    (kres kerrno : Int) (hres : kres ≠ -1)
    (hundef : DefaultKeyring.fromCode kres = none) :
    (keyctl_set_reqkey_keyring d kres kerrno).1 =
      (some kres, .error ⟨EINVAL⟩) ∧
    (∀ d2 : DefaultKeyring,
      (keyctl_set_reqkey_keyring d kres kerrno).1.2 ≠ .ok d2) ∧
    (∀ d2 : DefaultKeyring,
      DefaultKeyring.fromCode (DefaultKeyring.toCode d2) = some d2) := by
  have h1 : (keyctl_set_reqkey_keyring d kres kerrno).1 =
      (some kres, .error ⟨EINVAL⟩) := by
    simp [keyctl_set_reqkey_keyring, check_syscall, hres, default_keyring,
      hundef]
  refine ⟨h1, ?_, ?_⟩
  · intro d2
    rw [h1]
    simp
  · intro d2
    cases d2 <;> decide

/-- C1 witness at the undefined raw code 100. -/
theorem C1_set_reqkey_unknown_code_fatal_witness :
    (100 : Int) ≠ -1 ∧ DefaultKeyring.fromCode 100 = none ∧
    (keyctl_set_reqkey_keyring .Default 100 0).1 =
      (some 100, .error ⟨EINVAL⟩) :=
  ⟨by decide, by decide,
   (C1_set_reqkey_unknown_code_fatal .Default 100 0 (by decide)
     (by decide)).1⟩

/-- C5: the buffer-returning wrappers (`keyctl_describe`, `keyctl_read`,
`keyctl_get_security`, `keyctl_dh_compute`) call the kernel with a null
pointer and capacity 0 when no buffer is supplied, and on success return the
kernel-reported size unchanged regardless of the buffer passed. -/
theorem C5_size_probe_pattern :
    (∀ (id : KeyringSerial) (kres kerrno : Int),
      (keyctl_describe id none kres kerrno).2 =
        [SyscallReq.describe id.get true 0]) ∧
    (∀ (id : KeyringSerial) (buffer : Option Nat) (kres kerrno : Int),
      0 ≤ kres → (keyctl_describe id buffer kres kerrno).1 = .ok kres.toNat) ∧
    (∀ (id : KeyringSerial) (kres kerrno : Int),
      (keyctl_read id none kres kerrno).2 =
        [SyscallReq.readReq id.get true 0]) ∧
    (∀ (id : KeyringSerial) (buffer : Option Nat) (kres kerrno : Int),
      0 ≤ kres → (keyctl_read id buffer kres kerrno).1 = .ok kres.toNat) ∧
    (∀ (key : KeyringSerial) (kres kerrno : Int),
      (keyctl_get_security key none kres kerrno).2 =
        [SyscallReq.getSecurity key.get true 0]) ∧
    (∀ (key : KeyringSerial) (buffer : Option Nat) (kres kerrno : Int),
      0 ≤ kres →
        (keyctl_get_security key buffer kres kerrno).1 = .ok kres.toNat) ∧
    (∀ (p q b : KeyringSerial) (kres kerrno : Int),
      (keyctl_dh_compute p q b none kres kerrno).2 =
        [SyscallReq.dhCompute ⟨p.get, q.get, b.get⟩ true 0 none]) ∧
    (∀ (p q b : KeyringSerial) (buffer : Option Nat) (kres kerrno : Int),
      0 ≤ kres →
        (keyctl_dh_compute p q b buffer kres kerrno).1 = .ok kres.toNat) := by
  refine ⟨fun id kres kerrno => rfl, ?_, fun id kres kerrno => rfl, ?_,
    fun key kres kerrno => rfl, ?_, fun p q b kres kerrno => rfl, ?_⟩ <;>
    intro a b c d h <;>
    first
      | exact sizeConv_ok _ h
      | (intro e h2; exact sizeConv_ok _ h2)

/-- C5 witness: a probe call with no buffer and a success size of 42. -/
theorem C5_size_probe_pattern_witness :
    (keyctl_describe ⟨1⟩ none 42 0).1 = .ok 42 ∧
    (keyctl_read ⟨1⟩ (some 7) 42 0).1 = .ok 42 ∧
    (keyctl_get_security ⟨1⟩ none 42 0).1 = .ok 42 ∧
    (keyctl_dh_compute ⟨1⟩ ⟨2⟩ ⟨3⟩ none 42 0).1 = .ok 42 :=
  ⟨C5_size_probe_pattern.2.1 ⟨1⟩ none 42 0 (by decide),
   C5_size_probe_pattern.2.2.2.1 ⟨1⟩ (some 7) 42 0 (by decide),
   C5_size_probe_pattern.2.2.2.2.2.1 ⟨1⟩ none 42 0 (by decide),
   C5_size_probe_pattern.2.2.2.2.2.2.2 ⟨1⟩ ⟨2⟩ ⟨3⟩ none 42 0 (by decide)⟩

/-- C3: a kernel-returned identifier that does not fit `i32` or is zero, and
a kernel-returned byte count that does not fit `usize`, make every
identifier- or size-returning wrapper panic (`THE_KERNEL_LIED`,
`ZERO_KEY_ID_FOUND`, `BUFFER_OVERFLOW`), never return a normal `Err`. -/
theorem C3_untrusted_kernel_values_panic :
    (∀ r : Int, fitsI32 r = false →
      keyring_serial r = .panic .THE_KERNEL_LIED) ∧
    (keyring_serial 0 = .panic .ZERO_KEY_ID_FOUND) ∧
    (∀ r : Int, r < 0 → size r = .panic .BUFFER_OVERFLOW) ∧
    (∀ (t d : Str) (p : List Nat) (k : KeyringSerial) (kres kerrno : Int),
      t.contains 0 = false → d.contains 0 = false →
      (fitsI32 kres = false →
        (add_key t d p k kres kerrno).1 = .panic .THE_KERNEL_LIED) ∧
      (add_key t d p k 0 kerrno).1 = .panic .ZERO_KEY_ID_FOUND) ∧
    (∀ (t d : Str) (co : Option Str) (k : Option KeyringSerial)
        (kres kerrno : Int),
      t.contains 0 = false → d.contains 0 = false →
      (co.getD []).contains 0 = false →
      (fitsI32 kres = false →
        (request_key t d co k kres kerrno).1 = .panic .THE_KERNEL_LIED) ∧
      (request_key t d co k 0 kerrno).1 = .panic .ZERO_KEY_ID_FOUND) ∧
    (∀ (id : KeyringSerial) (create : Bool) (kres kerrno : Int),
      (fitsI32 kres = false →
        (keyctl_get_keyring_id id create kres kerrno).1 =
          .panic .THE_KERNEL_LIED) ∧
      (keyctl_get_keyring_id id create 0 kerrno).1 =
        .panic .ZERO_KEY_ID_FOUND) ∧
    (∀ (name : Option Str) (kres kerrno : Int),
      (name.getD []).contains 0 = false →
      (fitsI32 kres = false →
        (keyctl_join_session_keyring name kres kerrno).1 =
          .panic .THE_KERNEL_LIED) ∧
      (keyctl_join_session_keyring name 0 kerrno).1 =
        .panic .ZERO_KEY_ID_FOUND) ∧
    (∀ (ring : KeyringSerial) (t d : Str) (dest : Option KeyringSerial)
        (kres kerrno : Int),
      t.contains 0 = false → d.contains 0 = false →
      (fitsI32 kres = false →
        (keyctl_search ring t d dest kres kerrno).1 =
          .panic .THE_KERNEL_LIED) ∧
      (keyctl_search ring t d dest 0 kerrno).1 =
        .panic .ZERO_KEY_ID_FOUND) ∧
    (∀ (uid : Nat) (id : KeyringSerial) (kres kerrno : Int),
      (fitsI32 kres = false →
        (keyctl_get_persistent uid id kres kerrno).1 =
          .panic .THE_KERNEL_LIED) ∧
      (keyctl_get_persistent uid id 0 kerrno).1 =
        .panic .ZERO_KEY_ID_FOUND) ∧
    (∀ (id : KeyringSerial) (buffer : Option Nat) (kres kerrno : Int),
      kres ≠ -1 → kres < 0 →
      (keyctl_describe id buffer kres kerrno).1 = .panic .BUFFER_OVERFLOW) ∧
    (∀ (id : KeyringSerial) (buffer : Option Nat) (kres kerrno : Int),
      kres ≠ -1 → kres < 0 →
      (keyctl_read id buffer kres kerrno).1 = .panic .BUFFER_OVERFLOW) ∧
    (∀ (key : KeyringSerial) (buffer : Option Nat) (kres kerrno : Int),
      kres ≠ -1 → kres < 0 →
      (keyctl_get_security key buffer kres kerrno).1 =
        .panic .BUFFER_OVERFLOW) ∧
    (∀ (p q b : KeyringSerial) (buffer : Option Nat) (kres kerrno : Int),
      kres ≠ -1 → kres < 0 →
      (keyctl_dh_compute p q b buffer kres kerrno).1 =
        .panic .BUFFER_OVERFLOW) ∧
    (∀ (p q b : KeyringSerial) (h : Str) (oi : Option (List Nat))
        (buffer : Option Nat) (kres kerrno : Int),
      h.contains 0 = false → (oi.map List.length).getD 0 ≤ u32Max →
      kres ≠ -1 → kres < 0 →
      (keyctl_dh_compute_kdf p q b h oi buffer kres kerrno).1 =
        .panic .BUFFER_OVERFLOW) ∧
    (∀ (key : KeyringSerial) (info : Str) (data : List Nat) (buffer : Nat)
        (kres kerrno : Int),
      data.length ≤ u32Max → buffer ≤ u32Max → info.contains 0 = false →
      kres ≠ -1 → kres < 0 →
      (keyctl_pkey_encrypt key info data buffer kres kerrno).1 =
        .panic .BUFFER_OVERFLOW) ∧
    (∀ (key : KeyringSerial) (info : Str) (data : List Nat) (buffer : Nat)
        (kres kerrno : Int),
      data.length ≤ u32Max → buffer ≤ u32Max → info.contains 0 = false →
      kres ≠ -1 → kres < 0 →
      (keyctl_pkey_decrypt key info data buffer kres kerrno).1 =
        .panic .BUFFER_OVERFLOW) ∧
    (∀ (key : KeyringSerial) (info : Str) (data : List Nat) (buffer : Nat)
        (kres kerrno : Int),
      data.length ≤ u32Max → buffer ≤ u32Max → info.contains 0 = false →
      kres ≠ -1 → kres < 0 →
      (keyctl_pkey_sign key info data buffer kres kerrno).1 =
        .panic .BUFFER_OVERFLOW) := by
  refine ⟨?_, ?_, ?_, ?_, ?_, ?_, ?_, ?_, ?_, ?_, ?_, ?_, ?_, ?_, ?_, ?_, ?_⟩
  · intro r h
    have hr : r ≠ -1 := by
      intro hg
      rw [hg] at h
      exact absurd h (by decide)
    simp [keyring_serial, h]
  · decide
  · intro r h
    simp [size, not_le.mpr h]
  · intro t d p k kres kerrno ht hd
    constructor
    · intro hov
      simp [add_key, cstring_of_not_contains ht, cstring_of_not_contains hd]
      exact serialConv_overflow kerrno hov
    · simp [add_key, cstring_of_not_contains ht, cstring_of_not_contains hd]
      exact serialConv_zero kerrno
  · intro t d co k kres kerrno ht hd hco
    constructor
    · intro hov
      simp [request_key, cstring_of_not_contains ht,
        cstring_of_not_contains hd, opt_cstring_of_not_contains hco]
      exact serialConv_overflow kerrno hov
    · simp [request_key, cstring_of_not_contains ht,
        cstring_of_not_contains hd, opt_cstring_of_not_contains hco]
      exact serialConv_zero kerrno
  · intro id create kres kerrno
    exact ⟨fun hov => serialConv_overflow kerrno hov, serialConv_zero kerrno⟩
  · intro name kres kerrno hn
    constructor
    · intro hov
      simp [keyctl_join_session_keyring, opt_cstring_of_not_contains hn]
      exact serialConv_overflow kerrno hov
    · simp [keyctl_join_session_keyring, opt_cstring_of_not_contains hn]
      exact serialConv_zero kerrno
  · intro ring t d dest kres kerrno ht hd
    constructor
    · intro hov
      simp [keyctl_search, cstring_of_not_contains ht,
        cstring_of_not_contains hd]
      exact serialConv_overflow kerrno hov
    · simp [keyctl_search, cstring_of_not_contains ht,
        cstring_of_not_contains hd]
      exact serialConv_zero kerrno
  · intro uid id kres kerrno
    exact ⟨fun hov => serialConv_overflow kerrno hov, serialConv_zero kerrno⟩
  · intro id buffer kres kerrno h1 h2
    exact sizeConv_neg kerrno h1 h2
  · intro id buffer kres kerrno h1 h2
    exact sizeConv_neg kerrno h1 h2
  · intro key buffer kres kerrno h1 h2
    exact sizeConv_neg kerrno h1 h2
  · intro p q b buffer kres kerrno h1 h2
    exact sizeConv_neg kerrno h1 h2
  · intro p q b h oi buffer kres kerrno hh hl h1 h2
    simp [keyctl_dh_compute_kdf, cstring_of_not_contains hh,
      safe_len_of_le hl]
    exact sizeConv_neg kerrno h1 h2
  · intro key info data buffer kres kerrno hd hb hi h1 h2
    simp [keyctl_pkey_encrypt, safe_len_of_le hd, safe_len_of_le hb,
      cstring_of_not_contains hi]
    exact sizeConv_neg kerrno h1 h2
  · intro key info data buffer kres kerrno hd hb hi h1 h2
    simp [keyctl_pkey_decrypt, safe_len_of_le hd, safe_len_of_le hb,
      cstring_of_not_contains hi]
    exact sizeConv_neg kerrno h1 h2
  · intro key info data buffer kres kerrno hd hb hi h1 h2
    simp [keyctl_pkey_sign, safe_len_of_le hd, safe_len_of_le hb,
      cstring_of_not_contains hi]
    exact sizeConv_neg kerrno h1 h2

/-- C3 witness: a 64-bit-truncated id, a zero id and a negative byte count
at concrete inputs. -/
theorem C3_untrusted_kernel_values_panic_witness :
    (add_key [117] [100] [] ⟨1⟩ (2 ^ 31) 7).1 = .panic .THE_KERNEL_LIED ∧
    (add_key [117] [100] [] ⟨1⟩ 0 7).1 = .panic .ZERO_KEY_ID_FOUND ∧
    (keyctl_get_keyring_id ⟨1⟩ true (2 ^ 31) 7).1 = .panic .THE_KERNEL_LIED ∧
    (keyctl_read ⟨1⟩ none (-2) 7).1 = .panic .BUFFER_OVERFLOW ∧
    (keyctl_dh_compute_kdf ⟨1⟩ ⟨2⟩ ⟨3⟩ [104] none none (-2) 7).1 =
      .panic .BUFFER_OVERFLOW ∧
    (keyctl_pkey_encrypt ⟨1⟩ [105] [9] 8 (-2) 7).1 =
      .panic .BUFFER_OVERFLOW := by
  obtain ⟨-, -, -, hadd, -, hgid, -, -, -, -, hread, -, -, hkdf, henc, -, -⟩ :=
    C3_untrusted_kernel_values_panic
  refine ⟨(hadd [117] [100] [] ⟨1⟩ (2 ^ 31) 7 (by decide) (by decide)).1
      (by decide),
    (hadd [117] [100] [] ⟨1⟩ 0 7 (by decide) (by decide)).2,
    (hgid ⟨1⟩ true (2 ^ 31) 7).1 (by decide),
    hread ⟨1⟩ none (-2) 7 (by decide) (by decide),
    hkdf ⟨1⟩ ⟨2⟩ ⟨3⟩ [104] none none (-2) 7 (by decide) (by decide)
      (by decide) (by decide),
    henc ⟨1⟩ [105] [9] 8 (-2) 7 (by decide) (by decide) (by decide)
      (by decide) (by decide)⟩

/-- C2 counterexample: `add_key` with the type `user` and the description
`a\0b` (an embedded NUL) panics — the `unwrap` in `cstring` — with no syscall
issued; the rejection is a panic, not a recoverable invalid-argument `Err`
as the claim states. -/
theorem C2_counterexample_nul_is_panic :
    add_key [117, 115, 101, 114] [97, 0, 98] [] ⟨1⟩ 5 0 =
      (.panic .NUL_ERROR, []) := by
  decide

/-- C2 amended: an embedded NUL byte in any string input makes the operation
fail fast with a panic (never a silent truncation and never a recoverable
`Err`) before any syscall is attempted; for the public-key operations this
holds once the length arguments fit the kernel 32-bit field, since their
length validation precedes the string conversion. -/
theorem C2_amended_nul_rejected_by_panic :
    (∀ (t d : Str) (p : List Nat) (k : KeyringSerial) (kres kerrno : Int),
      (t.contains 0 || d.contains 0) = true →
      add_key t d p k kres kerrno = (.panic .NUL_ERROR, [])) ∧
    (∀ (t d : Str) (co : Option Str) (k : Option KeyringSerial)
        (kres kerrno : Int),
      (t.contains 0 || d.contains 0 || (co.getD []).contains 0) = true →
      request_key t d co k kres kerrno = (.panic .NUL_ERROR, [])) ∧
    (∀ (s : Str) (kres kerrno : Int), s.contains 0 = true →
      keyctl_join_session_keyring (some s) kres kerrno =
        (.panic .NUL_ERROR, [])) ∧
    (∀ (ring : KeyringSerial) (t d : Str) (dest : Option KeyringSerial)
        (kres kerrno : Int),
      (t.contains 0 || d.contains 0) = true →
      keyctl_search ring t d dest kres kerrno = (.panic .NUL_ERROR, [])) ∧
    (∀ (p q b : KeyringSerial) (h : Str) (oi : Option (List Nat))
        (buffer : Option Nat) (kres kerrno : Int),
      h.contains 0 = true →
      keyctl_dh_compute_kdf p q b h oi buffer kres kerrno =
        (.panic .NUL_ERROR, [])) ∧
    (∀ (kr : KeyringSerial) (t r : Str) (kres kerrno : Int),
      (t.contains 0 || r.contains 0) = true →
      keyctl_restrict_keyring kr (.ByType t r) kres kerrno =
        (.panic .NUL_ERROR, [])) ∧
    (∀ (key : KeyringSerial) (i : Str) (f : PKeyQuery) (kres kerrno : Int),
      i.contains 0 = true →
      keyctl_pkey_query key i f kres kerrno = (.panic .NUL_ERROR, [])) ∧
    (∀ (key : KeyringSerial) (i : Str) (data : List Nat) (buffer : Nat)
        (kres kerrno : Int),
      data.length ≤ u32Max → buffer ≤ u32Max → i.contains 0 = true →
      keyctl_pkey_encrypt key i data buffer kres kerrno =
        (.panic .NUL_ERROR, [])) ∧
    (∀ (key : KeyringSerial) (i : Str) (data : List Nat) (buffer : Nat)
        (kres kerrno : Int),
      data.length ≤ u32Max → buffer ≤ u32Max → i.contains 0 = true →
      keyctl_pkey_decrypt key i data buffer kres kerrno =
        (.panic .NUL_ERROR, [])) ∧
    (∀ (key : KeyringSerial) (i : Str) (data : List Nat) (buffer : Nat)
        (kres kerrno : Int),
      data.length ≤ u32Max → buffer ≤ u32Max → i.contains 0 = true →
      keyctl_pkey_sign key i data buffer kres kerrno =
        (.panic .NUL_ERROR, [])) ∧
    (∀ (key : KeyringSerial) (i : Str) (data sig : List Nat)
        (kres kerrno : Int),
      data.length ≤ u32Max → sig.length ≤ u32Max → i.contains 0 = true →
      keyctl_pkey_verify key i data sig kres kerrno =
        (.panic .NUL_ERROR, [])) := by
  refine ⟨?_, ?_, ?_, ?_, ?_, ?_, ?_, ?_, ?_, ?_, ?_⟩
  · intro t d p k kres kerrno h
    rcases Bool.or_eq_true_iff.mp h with ht | hd
    · simp [add_key, cstring_of_contains ht]
    · cases ht : t.contains 0
      · simp [add_key, cstring_of_not_contains ht, cstring_of_contains hd]
      · simp [add_key, cstring_of_contains ht]
  · intro t d co k kres kerrno h
    cases ht : t.contains 0
    · cases hd : d.contains 0
      · have hco : (co.getD []).contains 0 = true := by
          rw [ht, hd] at h
          simpa using h
        rcases co with - | s
        · simp at hco
        · simp only [Option.getD_some] at hco
          simp [request_key, cstring_of_not_contains ht,
            cstring_of_not_contains hd, opt_cstring, cstring_of_contains hco]
      · simp [request_key, cstring_of_not_contains ht,
          cstring_of_contains hd]
    · simp [request_key, cstring_of_contains ht]
  · intro s kres kerrno h
    simp [keyctl_join_session_keyring, opt_cstring, cstring_of_contains h]
  · intro ring t d dest kres kerrno h
    cases ht : t.contains 0
    · have hd : d.contains 0 = true := by
        rw [ht] at h
        simpa using h
      simp [keyctl_search, cstring_of_not_contains ht,
        cstring_of_contains hd]
    · simp [keyctl_search, cstring_of_contains ht]
  · intro p q b h oi buffer kres kerrno hh
    simp [keyctl_dh_compute_kdf, cstring_of_contains hh]
  · intro kr t r kres kerrno h
    cases ht : t.contains 0
    · have hr : r.contains 0 = true := by
        rw [ht] at h
        simpa using h
      simp [keyctl_restrict_keyring, cstring_of_not_contains ht,
        cstring_of_contains hr]
    · simp [keyctl_restrict_keyring, cstring_of_contains ht]
  · intro key i f kres kerrno h
    simp [keyctl_pkey_query, cstring_of_contains h]
  · intro key i data buffer kres kerrno hd hb h
    simp [keyctl_pkey_encrypt, safe_len_of_le hd, safe_len_of_le hb,
      cstring_of_contains h]
  · intro key i data buffer kres kerrno hd hb h
    simp [keyctl_pkey_decrypt, safe_len_of_le hd, safe_len_of_le hb,
      cstring_of_contains h]
  · intro key i data buffer kres kerrno hd hb h
    simp [keyctl_pkey_sign, safe_len_of_le hd, safe_len_of_le hb,
      cstring_of_contains h]
  · intro key i data sig kres kerrno hd hs h
    simp [keyctl_pkey_verify, safe_len_of_le hd, safe_len_of_le hs,
      cstring_of_contains h]

/-- C2 amended witness: embedded NULs at concrete inputs of several
operations. -/
theorem C2_amended_nul_rejected_by_panic_witness :
    add_key [117] [97, 0] [] ⟨1⟩ 5 0 = (.panic .NUL_ERROR, []) ∧
    request_key [117] [100] (some [99, 0]) none 5 0 =
      (.panic .NUL_ERROR, []) ∧
    keyctl_dh_compute_kdf ⟨1⟩ ⟨2⟩ ⟨3⟩ [104, 0] none none 5 0 =
      (.panic .NUL_ERROR, []) ∧
    keyctl_pkey_verify ⟨1⟩ [105, 0] [9] [8] 5 0 =
      (.panic .NUL_ERROR, []) := by
  obtain ⟨hadd, hreq, -, -, hkdf, -, -, -, -, -, hver⟩ :=
    C2_amended_nul_rejected_by_panic
  exact ⟨hadd [117] [97, 0] [] ⟨1⟩ 5 0 (by decide),
    hreq [117] [100] (some [99, 0]) none 5 0 (by decide),
    hkdf ⟨1⟩ ⟨2⟩ ⟨3⟩ [104, 0] none none 5 0 (by decide),
    hver ⟨1⟩ [105, 0] [9] [8] 5 0 (by decide) (by decide) (by decide)⟩

/-- C4 counterexample: `keyctl_dh_compute_kdf` with an other-info length of
`2 ^ 32` (exceeding the 32-bit maximum) and a hash name holding an embedded
NUL panics instead of returning `Err(EINVAL)`: the hash-name conversion runs
before the length check, so the claim as stated fails at this input. -/
theorem C4_counterexample_oversized_len_can_panic :
    keyctl_dh_compute_kdf ⟨1⟩ ⟨2⟩ ⟨3⟩ [104, 0]
      (some (List.replicate (2 ^ 32) 0)) none 5 0 =
      (.panic .NUL_ERROR, []) ∧
    u32Max < (List.replicate (2 ^ 32) (0 : Nat)).length := by
  constructor
  · generalize List.replicate (2 ^ 32) (0 : Nat) = L
    simp [keyctl_dh_compute_kdf,
      cstring_of_contains (by decide : List.contains ([104, 0] : Str) 0 = true)]
  · rw [List.length_replicate]
    norm_num [u32Max]

/-- C4 amended: a caller-supplied length exceeding the kernel 32-bit field
yields a recoverable `Err(EINVAL)` before any syscall and never a panic —
unconditionally for the public-key encrypt/decrypt/sign/verify operations
(their length checks run first), and for the DH-KDF other-info length
provided the hash name is NUL-free (its conversion, which panics on an
embedded NUL, runs before the length check). -/
theorem C4_amended_oversized_len_einval :
    (∀ (p q b : KeyringSerial) (h : Str) (l : List Nat)
        (buffer : Option Nat) (kres kerrno : Int),
      h.contains 0 = false → u32Max < l.length →
      keyctl_dh_compute_kdf p q b h (some l) buffer kres kerrno =
        (.err ⟨EINVAL⟩, [])) ∧
    (∀ (key : KeyringSerial) (i : Str) (data : List Nat) (buffer : Nat)
        (kres kerrno : Int),
      u32Max < data.length →
      keyctl_pkey_encrypt key i data buffer kres kerrno =
        (.err ⟨EINVAL⟩, [])) ∧
    (∀ (key : KeyringSerial) (i : Str) (data : List Nat) (buffer : Nat)
        (kres kerrno : Int),
      data.length ≤ u32Max → u32Max < buffer →
      keyctl_pkey_encrypt key i data buffer kres kerrno =
        (.err ⟨EINVAL⟩, [])) ∧
    (∀ (key : KeyringSerial) (i : Str) (data : List Nat) (buffer : Nat)
        (kres kerrno : Int),
      u32Max < data.length →
      keyctl_pkey_decrypt key i data buffer kres kerrno =
        (.err ⟨EINVAL⟩, [])) ∧
    (∀ (key : KeyringSerial) (i : Str) (data : List Nat) (buffer : Nat)
        (kres kerrno : Int),
      data.length ≤ u32Max → u32Max < buffer →
      keyctl_pkey_decrypt key i data buffer kres kerrno =
        (.err ⟨EINVAL⟩, [])) ∧
    (∀ (key : KeyringSerial) (i : Str) (data : List Nat) (buffer : Nat)
        (kres kerrno : Int),
      u32Max < data.length →
      keyctl_pkey_sign key i data buffer kres kerrno =
        (.err ⟨EINVAL⟩, [])) ∧
    (∀ (key : KeyringSerial) (i : Str) (data : List Nat) (buffer : Nat)
        (kres kerrno : Int),
      data.length ≤ u32Max → u32Max < buffer →
      keyctl_pkey_sign key i data buffer kres kerrno =
        (.err ⟨EINVAL⟩, [])) ∧
    (∀ (key : KeyringSerial) (i : Str) (data sig : List Nat)
        (kres kerrno : Int),
      u32Max < data.length →
      keyctl_pkey_verify key i data sig kres kerrno =
        (.err ⟨EINVAL⟩, [])) ∧
    (∀ (key : KeyringSerial) (i : Str) (data sig : List Nat)
        (kres kerrno : Int),
      data.length ≤ u32Max → u32Max < sig.length →
      keyctl_pkey_verify key i data sig kres kerrno =
        (.err ⟨EINVAL⟩, [])) := by
  refine ⟨?_, ?_, ?_, ?_, ?_, ?_, ?_, ?_, ?_⟩
  · intro p q b h l buffer kres kerrno hh hl
    simp only [keyctl_dh_compute_kdf, cstring_of_not_contains hh,
      Option.map_some', Option.getD_some, safe_len_of_gt hl]
  · intro key i data buffer kres kerrno hd
    simp [keyctl_pkey_encrypt, safe_len_of_gt hd]
  · intro key i data buffer kres kerrno hd hb
    simp [keyctl_pkey_encrypt, safe_len_of_le hd, safe_len_of_gt hb]
  · intro key i data buffer kres kerrno hd
    simp [keyctl_pkey_decrypt, safe_len_of_gt hd]
  · intro key i data buffer kres kerrno hd hb
    simp [keyctl_pkey_decrypt, safe_len_of_le hd, safe_len_of_gt hb]
  · intro key i data buffer kres kerrno hd
    simp [keyctl_pkey_sign, safe_len_of_gt hd]
  · intro key i data buffer kres kerrno hd hb
    simp [keyctl_pkey_sign, safe_len_of_le hd, safe_len_of_gt hb]
  · intro key i data sig kres kerrno hd
    simp [keyctl_pkey_verify, safe_len_of_gt hd]
  · intro key i data sig kres kerrno hd hs
    simp [keyctl_pkey_verify, safe_len_of_le hd, safe_len_of_gt hs]

/-- C4 amended witness: lengths of `2 ^ 32` at concrete inputs. -/
theorem C4_amended_oversized_len_einval_witness :
    u32Max < (List.replicate (2 ^ 32) (0 : Nat)).length ∧
    keyctl_dh_compute_kdf ⟨1⟩ ⟨2⟩ ⟨3⟩ [104]
      (some (List.replicate (2 ^ 32) 0)) none 5 0 = (.err ⟨EINVAL⟩, []) ∧
    keyctl_pkey_encrypt ⟨1⟩ [105] (List.replicate (2 ^ 32) 0) 4 5 0 =
      (.err ⟨EINVAL⟩, []) ∧
    keyctl_pkey_verify ⟨1⟩ [105] [9] (List.replicate (2 ^ 32) 0) 5 0 =
      (.err ⟨EINVAL⟩, []) := by
  have hlen : u32Max < (List.replicate (2 ^ 32) (0 : Nat)).length := by
    rw [List.length_replicate]
    norm_num [u32Max]
  obtain ⟨hkdf, henc1, -, -, -, -, -, -, hver2⟩ :=
    C4_amended_oversized_len_einval
  refine ⟨hlen, ?_, ?_, ?_⟩
  · exact hkdf ⟨1⟩ ⟨2⟩ ⟨3⟩ [104] (List.replicate (2 ^ 32) 0) none 5 0
      (by decide) hlen
  · exact henc1 ⟨1⟩ [105] (List.replicate (2 ^ 32) 0) 4 5 0 hlen
  · exact hver2 ⟨1⟩ [105] [9] (List.replicate (2 ^ 32) 0) 5 0 (by decide)
      hlen

end Keyutils
